import Mathlib

/-!
Shallow embedding of `src/scripts/metrics-agent.py`, a per-node telemetry
agent: three samplers (GPU via an external device-query tool, system via OS
queries, container count via a container-runtime tool), a snapshot
assembler, and a minimal HTTP handler.

Modelling conventions:
* Python strings are modelled as `List Char`; `str.strip`, `str.split` and
  `int(...)` are re-implemented below with Python semantics (ASCII
  whitespace; split keeps empty pieces; `int` accepts an optional sign and
  underscore-grouped digits).
* External effects are modelled by passing in their results: a subprocess
  invocation is an `Except InvErr RunResult` (the `error` case stands for
  `subprocess.run` raising: tool not found, timeout, or any other
  invocation error), and each OS resource query is an `Except OSErr _`.
* A Python exception raised while a pure function runs is modelled with
  `Option`/`Except`; the `try/except` blocks of the source become explicit
  `match`es on those values.
* Python `round(x, 1)` on the values arising here is exact decimal rounding
  with ties to even: the inputs are integers divided by a power of two,
  which is exact in binary floating point, and CPython rounds such a float
  to one decimal correctly with ties to even.  We therefore compute the
  number of tenths as an exact integer (`halfEvenDiv`) and embed it in `ℚ`.
-/

/-- Python ASCII whitespace, as stripped by `str.strip()` with no argument
(space, tab, newline, carriage return, vertical tab, form feed). -/
def isPySpace (c : Char) : Bool :=
  c = ' ' || c = '\t' || c = '\n' || c = '\r' || c.toNat = 11 || c.toNat = 12

/-- Python `s.strip()`: drop leading and trailing whitespace. -/
def pyStrip (s : List Char) : List Char :=
  ((s.dropWhile isPySpace).reverse.dropWhile isPySpace).reverse

/-- Python `s.split(sep)` for a one-character separator: split at every
occurrence of `sep`, keeping empty pieces (so there is always at least one
piece, and `n` separators yield `n + 1` pieces). -/
def splitChar (sep : Char) : List Char → List (List Char)
  | [] => [[]]
  | c :: rest =>
    if c = sep then [] :: splitChar sep rest
    else
      match splitChar sep rest with
      | [] => [[c]]
      | piece :: pieces => (c :: piece) :: pieces

/-- Decimal digit test. -/
def isDigit (c : Char) : Bool := '0' ≤ c && c ≤ '9'

/-- Value of a list of decimal digits. -/
def digitsToNat (cs : List Char) : ℕ :=
  cs.foldl (fun a c => 10 * a + (c.toNat - 48)) 0

/-- Every underscore in a Python integer literal body must be followed by a
digit (together with the other checks in `intBodyOk` this puts underscores
strictly between digits). -/
def underscoresOk : List Char → Bool
  | [] => true
  | '_' :: rest =>
    match rest with
    | [] => false
    | d :: _ => isDigit d && underscoresOk rest
  | _ :: rest => underscoresOk rest

/-- A valid digit body for Python `int(...)`: nonempty, starts with a digit,
made of digits and underscores, underscores only between digits. -/
def intBodyOk (cs : List Char) : Bool :=
  !cs.isEmpty && isDigit (cs.headD ' ') &&
    cs.all (fun c => isDigit c || c = '_') && underscoresOk cs

/-- Python `int(s)` on a decimal string: strips whitespace, accepts one
optional sign, then an underscore-grouped digit body.  `none` models
`int(...)` raising `ValueError`. -/
def pyInt (s : List Char) : Option ℤ :=
  match pyStrip s with
  | '+' :: rest =>
    if intBodyOk rest then some (digitsToNat (rest.filter (fun c => c ≠ '_'))) else none
  | '-' :: rest =>
    if intBodyOk rest then some (-(digitsToNat (rest.filter (fun c => c ≠ '_')) : ℤ)) else none
  | cs =>
    if intBodyOk cs then some (digitsToNat (cs.filter (fun c => c ≠ '_'))) else none

/-- Round `a / d` (for `d > 0`) to the nearest integer, ties to even: the
rounding CPython applies. -/
def halfEvenDiv (a d : ℤ) : ℤ :=
  if 2 * (a % d) < d then a / d
  else if d < 2 * (a % d) then a / d + 1
  else if (a / d) % 2 = 0 then a / d else a / d + 1

/-- Python `round(n / d, 1)` for integer `n` and positive integer `d`:
the exact value rounded to one decimal place, ties to even. -/
def pyRound1Div (n d : ℤ) : ℚ :=
  (halfEvenDiv (10 * n) d : ℚ) / 10

/-- Python `round(q)` to an integer, ties to even. -/
def pyRound (q : ℚ) : ℤ :=
  if q - ⌊q⌋ < 1/2 then ⌊q⌋
  else if 1/2 < q - ⌊q⌋ then ⌊q⌋ + 1
  else if ⌊q⌋ % 2 = 0 then ⌊q⌋ else ⌊q⌋ + 1

/-- Why a `subprocess.run` invocation raised, when it did
(`FileNotFoundError`, `TimeoutExpired`, or anything else). -/
inductive InvErr
  | fileNotFound
  | timedOut
  | other (msg : String)
deriving DecidableEq

/-- Result of a completed `subprocess.run` invocation with captured text
output. -/
structure RunResult where
  returncode : ℤ
  stdout : String
deriving DecidableEq

/-- An OS resource query failure (`psutil` raising). -/
structure OSErr where
  msg : String
deriving DecidableEq

/-- The `psutil.virtual_memory()` fields the agent reads, in bytes. -/
structure VirtualMemory where
  used : ℕ
  total : ℕ
deriving DecidableEq

/-- The `psutil.disk_usage('/')` fields the agent reads, in bytes. -/
structure DiskUsage where
  used : ℕ
  total : ℕ
deriving DecidableEq

/-- One element of the `gpus` sequence (`get_gpu_metrics`, lines 28-37). -/
structure GpuMetric where
  index : ℤ
  name : String
  utilization_percent : ℤ
  memory_used_gb : ℚ
  memory_total_gb : ℚ
  temperature_c : ℤ
deriving DecidableEq

/-- The `system` fragment (`get_system_metrics`, lines 56-62). -/
structure SystemMetrics where
  cpu_percent : ℤ
  ram_used_gb : ℚ
  ram_total_gb : ℚ
  disk_used_gb : ℚ
  disk_total_gb : ℚ
deriving DecidableEq

/-- The `containers` fragment of the snapshot. -/
structure ContainerInfo where
  running : ℕ
deriving DecidableEq

/-- The full metrics document assembled by `collect_metrics`. -/
structure Snapshot where
  timestamp : String
  system : SystemMetrics
  gpus : List GpuMetric
  containers : ContainerInfo
deriving DecidableEq

/-- One request-time environment: the capture instant and the outcome every
external query would have if invoked (subprocess results for the
device-query and container-runtime tools, OS resource query results). -/
structure AgentEnv where
  utcnow_iso : String
  cpu_percent : Except OSErr ℚ
  virtual_memory : Except OSErr VirtualMemory
  disk_usage : Except OSErr DiskUsage
  nvidia_smi : Except InvErr RunResult
  docker_ps : Except InvErr RunResult

/-- The literal sentinel the device-query tool prints for an unavailable
value. -/
def naLit : List Char := "[N/A]".data

/-- Fields of one output line: split on commas, each piece stripped
(line 28 of the source: `parts = [p.strip() for p in line.split(',')]`). -/
def lineParts (line : List Char) : List (List Char) :=
  (splitChar ',' line).map pyStrip

/-- Parse one device line with at least 6 fields into a `GpuMetric`
(lines 29-37 of the source).  `none` models `int(...)` raising inside the
dict literal; field expressions are evaluated in source order.  Only the
four trailing numeric fields guard against `[N/A]`; `index` does not. -/
def parseGpuLine (parts : List (List Char)) : Option GpuMetric :=
  (pyInt (parts.getD 0 [])).bind fun index =>
  (if parts.getD 2 [] = naLit then some 0 else pyInt (parts.getD 2 [])).bind fun util =>
  (if parts.getD 3 [] = naLit then some (0 : ℚ)
    else (pyInt (parts.getD 3 [])).map fun n => pyRound1Div n 1024).bind fun memUsed =>
  (if parts.getD 4 [] = naLit then some (0 : ℚ)
    else (pyInt (parts.getD 4 [])).map fun n => pyRound1Div n 1024).bind fun memTotal =>
  (if parts.getD 5 [] = naLit then some 0 else pyInt (parts.getD 5 [])).map fun temp =>
  { index := index, name := String.mk (parts.getD 1 []), utilization_percent := util,
    memory_used_gb := memUsed, memory_total_gb := memTotal,
    temperature_c := temp }

/-- The output lines scanned by the GPU sampler:
`result.stdout.strip().split('\n')` (line 26 of the source). -/
def gpuLines (stdout : String) : List (List Char) :=
  splitChar '\n' (pyStrip stdout.data)

/-- The `for line in ...` loop of `get_gpu_metrics` (lines 26-37), with the
accumulator `gpus`.  A line that is empty or has fewer than 6 fields is
skipped and the loop continues; a kept line either appends its metric or —
when a numeric field raises (modelled by `parseGpuLine = none`) — the
exception escapes the loop, is caught by the enclosing `except`, and the
mutated accumulator collected so far is returned. -/
def parseGpuLoop : List (List Char) → List GpuMetric → List GpuMetric
  | [], gpus => gpus
  | line :: rest, gpus =>
    if line ≠ [] then
      if 6 ≤ (lineParts line).length then
        match parseGpuLine (lineParts line) with
        | some g => parseGpuLoop rest (gpus ++ [g])
        | none => gpus
      else parseGpuLoop rest gpus
    else parseGpuLoop rest gpus

/-- `get_gpu_metrics` (lines 16-40): invoke the device-query tool; on any
invocation error, or a non-zero exit, the result is the empty list; on exit
zero, scan the output lines. -/
def get_gpu_metrics (run : Except InvErr RunResult) : List GpuMetric :=
  match run with
  | .error _ => []
  | .ok r => if r.returncode = 0 then parseGpuLoop (gpuLines r.stdout) [] else []

/-- `get_system_metrics` (lines 42-63): no `try/except` anywhere — each OS
query failure propagates (the `Except` bind short-circuits exactly where
the Python exception would escape). -/
def get_system_metrics (env : AgentEnv) : Except OSErr SystemMetrics :=
  match env.cpu_percent with
  | .error e => .error e
  | .ok cpu =>
    match env.virtual_memory with
    | .error e => .error e
    | .ok mem =>
      match env.disk_usage with
      | .error e => .error e
      | .ok disk =>
        .ok { cpu_percent := pyRound cpu,
              ram_used_gb := pyRound1Div mem.used (1024 ^ 3),
              ram_total_gb := pyRound1Div mem.total (1024 ^ 3),
              disk_used_gb := pyRound1Div disk.used (1024 ^ 3),
              disk_total_gb := pyRound1Div disk.total (1024 ^ 3) }

/-- `get_container_count` (lines 65-76): on exit zero, count the non-empty
lines of stdout; on a non-zero exit or any invocation error, 0. -/
def get_container_count (run : Except InvErr RunResult) : ℕ :=
  match run with
  | .error _ => 0
  | .ok r =>
    if r.returncode = 0 then
      ((splitChar '\n' (pyStrip r.stdout.data)).filter (fun l => !l.isEmpty)).length
    else 0

/-- `collect_metrics` (lines 78-87): the dict literal evaluates the
timestamp first, then the system sampler (whose failure propagates), then
the tolerant GPU and container samplers. -/
def collect_metrics (env : AgentEnv) : Except OSErr Snapshot :=
  match get_system_metrics env with
  | .error e => .error e
  | .ok sys =>
    .ok { timestamp := env.utcnow_iso ++ "Z", system := sys,
          gpus := get_gpu_metrics env.nvidia_smi,
          containers := { running := get_container_count env.docker_ps } }

/-- Response body: nothing written, plain text, the JSON rendering of a
snapshot, or the HTML error page the base handler writes for
`send_error`. -/
inductive Body
  | empty
  | text (s : String)
  | json (s : Snapshot)
  | errorPage (code : ℕ) (message : String)
deriving DecidableEq

/-- The response as the handler writes it: status line, the content-type
header when one is sent, whether the permissive CORS header is sent, and
the body. -/
structure Response where
  status : ℕ
  contentType : Option String
  cors : Bool
  body : Body
deriving DecidableEq

/-- `MetricsHandler.do_GET` (lines 94-111): exact string comparison of the
raw request target against `/metrics`, `/`, `/health`; anything else gets
404 with no body.  An exception escaping `collect_metrics` escapes the
handler (no response is produced). -/
def do_GET (env : AgentEnv) (path : String) : Except OSErr Response :=
  if path = "/metrics" ∨ path = "/" then
    match collect_metrics env with
    | .error e => .error e
    | .ok m => .ok { status := 200, contentType := some "application/json",
                     cors := true, body := .json m }
  else if path = "/health" then
    .ok { status := 200, contentType := some "text/plain", cors := false,
          body := .text "OK" }
  else
    .ok { status := 404, contentType := none, cors := false, body := .empty }

/-- Method dispatch of `http.server.BaseHTTPRequestHandler`: the class
defines only `do_GET`, so any other method is answered by the base handler
with `send_error(501, "Unsupported method (...)")` and its HTML error
page. -/
def handleRequest (env : AgentEnv) (method path : String) : Except OSErr Response :=
  if method = "GET" then do_GET env path
  else .ok { status := 501, contentType := some "text/html;charset=utf-8",
             cors := false,
             body := .errorPage 501 ("Unsupported method (" ++ method ++ ")") }

/-- A line the loop keeps for parsing: non-empty and with at least 6
comma-separated fields (lines 27 and 29 of the source). -/
def keptLine (l : List Char) : Prop :=
  l ≠ [] ∧ 6 ≤ (lineParts l).length

instance : DecidablePred keptLine :=
  fun l => decidable_of_iff (l ≠ [] ∧ 6 ≤ (lineParts l).length) Iff.rfl

/-- A fixed concrete request environment used to instantiate closed
statements: both external tools absent, OS queries succeeding. -/
def sampleEnv : AgentEnv :=
  { utcnow_iso := "2026-01-01T00:00:00"
    cpu_percent := .ok 0
    virtual_memory := .ok { used := 0, total := 0 }
    disk_usage := .ok { used := 0, total := 0 }
    nvidia_smi := .error .fileNotFound
    docker_ps := .error .fileNotFound }

/-- A request environment whose CPU query fails. -/
def cpuFailEnv : AgentEnv :=
  { sampleEnv with cpu_percent := .error { msg := "psutil failure" } }

/-- Rounding a quotient with a fixed positive denominator is monotone in
the numerator (stated for the concrete denominator 1024 used by the GPU
sampler). -/
theorem halfEvenDiv_mono_1024 {a b : ℤ} (h : a ≤ b) :
    halfEvenDiv a 1024 ≤ halfEvenDiv b 1024 := by
  unfold halfEvenDiv
  split_ifs <;> omega

/-- Converting MiB to rounded GB (division by 1024, one decimal, ties to
even) is monotone. -/
theorem pyRound1Div_mono_1024 {u t : ℤ} (h : u ≤ t) :
    pyRound1Div u 1024 ≤ pyRound1Div t 1024 := by
  unfold pyRound1Div
  have hm : halfEvenDiv (10 * u) 1024 ≤ halfEvenDiv (10 * t) 1024 :=
    halfEvenDiv_mono_1024 (by omega)
  have hc : ((halfEvenDiv (10 * u) 1024 : ℤ) : ℚ) ≤ ((halfEvenDiv (10 * t) 1024 : ℤ) : ℚ) :=
    Int.cast_le.mpr hm
  exact div_le_div_of_nonneg_right hc (by norm_num) |>.trans_eq rfl

/-- When every kept line parses, the scanning loop appends exactly one
metric per kept line, in order, after the accumulator. -/
theorem parseGpuLoop_eq (lines : List (List Char)) (acc : List GpuMetric)
    (h : ∀ l ∈ lines, keptLine l → (parseGpuLine (lineParts l)).isSome) :
    parseGpuLoop lines acc =
      acc ++ lines.filterMap
        (fun l => if keptLine l then parseGpuLine (lineParts l) else none) := by
  induction lines generalizing acc with
  | nil => simp [parseGpuLoop]
  | cons l rest ih =>
    have hrest : ∀ l' ∈ rest, keptLine l' → (parseGpuLine (lineParts l')).isSome :=
      fun l' hl' => h l' (List.mem_cons_of_mem l hl')
    by_cases hl : l = []
    · subst hl
      have hk : ¬ keptLine ([] : List Char) := fun hk => hk.1 rfl
      simp only [parseGpuLoop, ne_eq, not_true_eq_false, if_false, List.filterMap_cons,
        if_neg hk]
      exact ih acc hrest
    · by_cases h6 : 6 ≤ (lineParts l).length
      · have hk : keptLine l := ⟨hl, h6⟩
        obtain ⟨g, hg⟩ := Option.isSome_iff_exists.mp (h l (List.mem_cons_self l rest) hk)
        simp only [parseGpuLoop, ne_eq, hl, not_false_eq_true, if_true, if_pos h6, hg,
          List.filterMap_cons, if_pos hk]
        rw [ih (acc ++ [g]) hrest]
        simp
      · have hk : ¬ keptLine l := fun hk => h6 hk.2
        simp only [parseGpuLoop, ne_eq, hl, not_false_eq_true, if_true, if_neg h6,
          List.filterMap_cons, if_neg hk]
        exact ih acc hrest

/-- Inversion of `parseGpuLine`: a successful parse determines every field
of the produced metric from the corresponding source field. -/
theorem parseGpuLine_inv (parts : List (List Char)) (g : GpuMetric)
    (hp : parseGpuLine parts = some g) :
    ∃ index util memUsed memTotal temp,
      pyInt (parts.getD 0 []) = some index ∧
      (if parts.getD 2 [] = naLit then some 0 else pyInt (parts.getD 2 [])) = some util ∧
      (if parts.getD 3 [] = naLit then some (0 : ℚ)
        else (pyInt (parts.getD 3 [])).map fun n => pyRound1Div n 1024) = some memUsed ∧
      (if parts.getD 4 [] = naLit then some (0 : ℚ)
        else (pyInt (parts.getD 4 [])).map fun n => pyRound1Div n 1024) = some memTotal ∧
      (if parts.getD 5 [] = naLit then some 0 else pyInt (parts.getD 5 [])) = some temp ∧
      g = { index := index, name := String.mk (parts.getD 1 []),
            utilization_percent := util, memory_used_gb := memUsed,
            memory_total_gb := memTotal, temperature_c := temp } := by
  unfold parseGpuLine at hp
  rw [Option.bind_eq_some] at hp
  obtain ⟨index, h0, hp⟩ := hp
  rw [Option.bind_eq_some] at hp
  obtain ⟨util, h2, hp⟩ := hp
  rw [Option.bind_eq_some] at hp
  obtain ⟨memUsed, h3, hp⟩ := hp
  rw [Option.bind_eq_some] at hp
  obtain ⟨memTotal, h4, hp⟩ := hp
  rw [Option.map_eq_some'] at hp
  obtain ⟨temp, h5, hp⟩ := hp
  exact ⟨index, util, memUsed, memTotal, temp, h0, h2, h3, h4, h5, hp.symm⟩

example : pyInt "45".data = some 45 := by decide
example : pyInt "[N/A]".data = none := by decide
example : pyInt " -1_2 ".data = some (-12) := by decide
example : halfEvenDiv (10 * 2048) 1024 = 20 := by decide
example : halfEvenDiv 25 10 = 2 := by decide
example : gpuLines "a\nb" = ["a".data, "b".data] := by decide

/-- The stdout used to instantiate the corrected per-line-drop property: one
parseable device line followed by a line with too few fields. -/
def mixedStdout : String := "0, Tesla T4, 45, 2048, 16384, 60\nshort, line"

/-- Length of the kept-line filterMap under the all-kept-lines-parse
hypothesis: one metric per kept line. -/
theorem length_filterMap_kept (lines : List (List Char))
    (h : ∀ l ∈ lines, keptLine l → (parseGpuLine (lineParts l)).isSome) :
    (lines.filterMap
        (fun l => if keptLine l then parseGpuLine (lineParts l) else none)).length =
      lines.countP (fun l => decide (keptLine l)) := by
  induction lines with
  | nil => simp
  | cons l rest ih =>
    have hrest : ∀ l' ∈ rest, keptLine l' → (parseGpuLine (lineParts l')).isSome :=
      fun l' hl' => h l' (List.mem_cons_of_mem l hl')
    by_cases hk : keptLine l
    · obtain ⟨g, hg⟩ := Option.isSome_iff_exists.mp (h l (List.mem_cons_self l rest) hk)
      simp [List.filterMap_cons, if_pos hk, hg, List.countP_cons, hk, ih hrest]
    · simp [List.filterMap_cons, if_neg hk, List.countP_cons, hk, ih hrest]

/-- C1 (corrected): when the device-query tool exits zero and every kept
line (non-empty, at least 6 fields) parses, each line that is empty or has
fewer than 6 fields is dropped individually, scanning continues, and the
result has exactly one metric per kept line, in order.  (The original
claim fails when a kept line has an unparseable numeric field: see the
counterexample, where the scan aborts and later parseable lines are
lost.) -/
theorem gpu_short_lines_dropped_individually (r : RunResult) (h0 : r.returncode = 0)
    (h : ∀ l ∈ gpuLines r.stdout, keptLine l → (parseGpuLine (lineParts l)).isSome) :
    get_gpu_metrics (.ok r) =
      (gpuLines r.stdout).filterMap
        (fun l => if keptLine l then parseGpuLine (lineParts l) else none) ∧
    (get_gpu_metrics (.ok r)).length =
      (gpuLines r.stdout).countP (fun l => decide (keptLine l)) := by
  have heq : get_gpu_metrics (.ok r) =
      (gpuLines r.stdout).filterMap
        (fun l => if keptLine l then parseGpuLine (lineParts l) else none) := by
    simp only [get_gpu_metrics, if_pos h0]
    rw [parseGpuLoop_eq (gpuLines r.stdout) [] h, List.nil_append]
  exact ⟨heq, by rw [heq, length_filterMap_kept (gpuLines r.stdout) h]⟩

/-- Witness for C1: a parseable line followed by a 2-field line; the short
line is dropped, the parseable line yields the single metric. -/
theorem gpu_short_lines_dropped_individually_wit :
    get_gpu_metrics (.ok { returncode := 0, stdout := mixedStdout }) =
      (gpuLines mixedStdout).filterMap
        (fun l => if keptLine l then parseGpuLine (lineParts l) else none) ∧
    (get_gpu_metrics (.ok { returncode := 0, stdout := mixedStdout })).length =
      (gpuLines mixedStdout).countP (fun l => decide (keptLine l)) :=
  gpu_short_lines_dropped_individually { returncode := 0, stdout := mixedStdout } rfl
    (by decide)

/-- Counterexample to C1 as stated: the first output line has 6 fields but
a non-numeric index, so the loop raises, the enclosing handler catches, and
the second — perfectly parseable — line is never reached: the result is
empty although one parseable line exists. -/
theorem gpu_badline_aborts_scan_cex :
    get_gpu_metrics
        (.ok { returncode := 0, stdout := "x, n, u, m, t, c\n0, Tesla T4, 45, 2048, 16384, 60" }) = [] ∧
    (parseGpuLine (lineParts "0, Tesla T4, 45, 2048, 16384, 60".data)).isSome = true ∧
    keptLine "x, n, u, m, t, c".data :=
  ⟨rfl, rfl, by decide⟩

/-- C2 (corrected): a GET whose path is none of the three routes gets 404
with an empty body; but a request with any other method never reaches
`do_GET` — the base handler answers 501 (Unsupported method) with an HTML
error page, not 404. -/
theorem unknown_route_dispatch :
    (∀ (env : AgentEnv) (path : String),
      path ≠ "/" → path ≠ "/metrics" → path ≠ "/health" →
      handleRequest env "GET" path =
        .ok { status := 404, contentType := none, cors := false, body := .empty }) ∧
    (∀ (env : AgentEnv) (method path : String), method ≠ "GET" →
      handleRequest env method path =
        .ok { status := 501, contentType := some "text/html;charset=utf-8",
              cors := false,
              body := .errorPage 501 ("Unsupported method (" ++ method ++ ")") }) := by
  constructor
  · intro env path h1 h2 h3
    simp [handleRequest, do_GET, h1, h2, h3]
  · intro env method path h
    simp [handleRequest, h]

/-- Witness for C2: the unknown path `/nope` under GET, and a POST. -/
theorem unknown_route_dispatch_wit :
    handleRequest sampleEnv "GET" "/nope" =
      .ok { status := 404, contentType := none, cors := false, body := .empty } ∧
    handleRequest sampleEnv "POST" "/nope" =
      .ok { status := 501, contentType := some "text/html;charset=utf-8",
            cors := false,
            body := .errorPage 501 ("Unsupported method (" ++ "POST" ++ ")") } :=
  ⟨unknown_route_dispatch.1 sampleEnv "/nope" (by decide) (by decide) (by decide),
   unknown_route_dispatch.2 sampleEnv "POST" "/nope" (by decide)⟩

/-- Counterexample to C2 as stated: a POST to an unknown path is answered
with status 501, not 404. -/
theorem non_get_method_status_cex :
    (handleRequest sampleEnv "POST" "/nope").map Response.status = .ok 501 ∧
    (501 : ℕ) ≠ 404 :=
  ⟨rfl, by decide⟩

/-- C3 (corrected): the sentinel mapping `[N/A] → 0` applies to the
utilization, memory-used, memory-total and temperature fields of a parsed
line — but not to the index field, which has no guard (see the
counterexample: an `[N/A]` index raises and no metric is produced). -/
theorem gpu_na_fields_zeroed (parts : List (List Char)) (g : GpuMetric)
    (hp : parseGpuLine parts = some g) :
    (parts.getD 2 [] = naLit → g.utilization_percent = 0) ∧
    (parts.getD 3 [] = naLit → g.memory_used_gb = 0) ∧
    (parts.getD 4 [] = naLit → g.memory_total_gb = 0) ∧
    (parts.getD 5 [] = naLit → g.temperature_c = 0) := by
  obtain ⟨index, util, memUsed, memTotal, temp, h0, h2, h3, h4, h5, hg⟩ :=
    parseGpuLine_inv parts g hp
  subst hg
  refine ⟨fun hna => ?_, fun hna => ?_, fun hna => ?_, fun hna => ?_⟩
  · rw [if_pos hna] at h2
    simpa using h2.symm
  · rw [if_pos hna] at h3
    simpa using h3.symm
  · rw [if_pos hna] at h4
    simpa using h4.symm
  · rw [if_pos hna] at h5
    simpa using h5.symm

/-- Fields of a device line whose four guarded numeric fields are all the
`[N/A]` sentinel. -/
def naTestParts : List (List Char) :=
  lineParts "7, X, [N/A], [N/A], [N/A], [N/A]".data

/-- The metric the sampler produces for `naTestParts`. -/
def naTestMetric : GpuMetric :=
  { index := 7, name := "X", utilization_percent := 0, memory_used_gb := 0,
    memory_total_gb := 0, temperature_c := 0 }

/-- Witness for C3: each guarded field with value `[N/A]` resolves to 0. -/
theorem gpu_na_fields_zeroed_wit :
    (naTestParts.getD 2 [] = naLit → naTestMetric.utilization_percent = 0) ∧
    (naTestParts.getD 3 [] = naLit → naTestMetric.memory_used_gb = 0) ∧
    (naTestParts.getD 4 [] = naLit → naTestMetric.memory_total_gb = 0) ∧
    (naTestParts.getD 5 [] = naLit → naTestMetric.temperature_c = 0) :=
  gpu_na_fields_zeroed naTestParts naTestMetric rfl

/-- Counterexample to C3 as stated: a kept line (6 fields) whose index
field is `[N/A]` does not map the index to 0 — `int('[N/A]')` raises, the
whole scan aborts, and no metric at all is produced for the line. -/
theorem gpu_index_na_aborts_cex :
    get_gpu_metrics
        (.ok { returncode := 0, stdout := "[N/A], X, 45, 2048, 16384, 60" }) = [] ∧
    keptLine "[N/A], X, 45, 2048, 16384, 60".data ∧
    (lineParts "[N/A], X, 45, 2048, 16384, 60".data).getD 0 [] = naLit :=
  ⟨rfl, by decide, by decide⟩

/-- C4 (confirmed): the documented example line parses to exactly the
documented metric; both memory fields are divided by 1024 and rounded to
one decimal place (2048 MiB to 2.0 GB, 16384 MiB to 16.0 GB). -/
theorem gpu_t4_line_metric :
    get_gpu_metrics
        (.ok { returncode := 0, stdout := "0, Tesla T4, 45, 2048, 16384, 60" }) =
      [{ index := 0, name := "Tesla T4", utilization_percent := 45,
         memory_used_gb := 2, memory_total_gb := 16, temperature_c := 60 }] := by
  have h : get_gpu_metrics
      (.ok { returncode := 0, stdout := "0, Tesla T4, 45, 2048, 16384, 60" }) =
      [{ index := 0, name := "Tesla T4", utilization_percent := 45,
         memory_used_gb := pyRound1Div 2048 1024,
         memory_total_gb := pyRound1Div 16384 1024, temperature_c := 60 }] := by rfl
  have h2 : pyRound1Div 2048 1024 = 2 := by
    have he : halfEvenDiv (10 * 2048) 1024 = 20 := by decide
    rw [pyRound1Div, he]
    norm_num
  have h16 : pyRound1Div 16384 1024 = 16 := by
    have he : halfEvenDiv (10 * 16384) 1024 = 160 := by decide
    rw [pyRound1Div, he]
    norm_num
  rw [h, h2, h16]

/-- C5 (confirmed): the system sampler wraps nothing in a handler — if any
of the three OS queries fails, the failure propagates out of the sampler,
through `collect_metrics`, and out of the request handler (no response is
produced for the `/metrics` request). -/
theorem system_sampler_propagates_failure (env : AgentEnv)
    (h : (∃ e, env.cpu_percent = .error e) ∨ (∃ e, env.virtual_memory = .error e) ∨
         (∃ e, env.disk_usage = .error e)) :
    (∃ e, get_system_metrics env = .error e) ∧
    (∃ e, handleRequest env "GET" "/metrics" = .error e) := by
  have hsys : ∃ e, get_system_metrics env = .error e := by
    rcases h with ⟨e, he⟩ | ⟨e, he⟩ | ⟨e, he⟩
    · exact ⟨e, by simp [get_system_metrics, he]⟩
    · rcases hc : env.cpu_percent with e2 | c
      · exact ⟨e2, by simp [get_system_metrics, hc]⟩
      · exact ⟨e, by simp [get_system_metrics, hc, he]⟩
    · rcases hc : env.cpu_percent with e2 | c
      · exact ⟨e2, by simp [get_system_metrics, hc]⟩
      · rcases hm : env.virtual_memory with e2 | m
        · exact ⟨e2, by simp [get_system_metrics, hc, hm]⟩
        · exact ⟨e, by simp [get_system_metrics, hc, hm, he]⟩
  obtain ⟨e, he⟩ := hsys
  refine ⟨⟨e, he⟩, ⟨e, ?_⟩⟩
  simp [handleRequest, do_GET, collect_metrics, he]

/-- Witness for C5: an environment whose CPU query fails produces no
system metrics and no `/metrics` response. -/
theorem system_sampler_propagates_failure_wit :
    (∃ e, get_system_metrics cpuFailEnv = .error e) ∧
    (∃ e, handleRequest cpuFailEnv "GET" "/metrics" = .error e) :=
  system_sampler_propagates_failure cpuFailEnv
    (Or.inl ⟨{ msg := "psutil failure" }, rfl⟩)

/-- C6 (confirmed): every invocation error of the device-query tool — and
likewise a non-zero exit — yields the empty sequence; the sampler is a
total function, so no error ever propagates to its caller. -/
theorem gpu_sampler_invocation_failure_empty :
    (∀ e : InvErr, get_gpu_metrics (.error e) = []) ∧
    (∀ r : RunResult, r.returncode ≠ 0 → get_gpu_metrics (.ok r) = []) := by
  refine ⟨fun e => rfl, fun r h => ?_⟩
  simp [get_gpu_metrics, h]

/-- Witness for C6: tool not found, and a non-zero exit with parseable
output, both yield the empty sequence. -/
theorem gpu_sampler_invocation_failure_empty_wit :
    get_gpu_metrics (.error .fileNotFound) = [] ∧
    get_gpu_metrics (.ok { returncode := 1, stdout := "0, X, 1, 2, 3, 4" }) = [] :=
  ⟨gpu_sampler_invocation_failure_empty.1 .fileNotFound,
   gpu_sampler_invocation_failure_empty.2 { returncode := 1, stdout := "0, X, 1, 2, 3, 4" }
     (by decide)⟩

/-- C7 (confirmed): the container counter returns the number of non-empty
output lines on a zero exit, and 0 on a non-zero exit or any invocation
error; its value is a natural number, hence never negative, and the
function is total, so no error ever propagates. -/
theorem container_count_spec :
    (∀ e : InvErr, get_container_count (.error e) = 0) ∧
    (∀ r : RunResult, r.returncode ≠ 0 → get_container_count (.ok r) = 0) ∧
    (∀ r : RunResult, r.returncode = 0 →
      get_container_count (.ok r) =
        (splitChar '\n' (pyStrip r.stdout.data)).countP (fun l => !l.isEmpty)) ∧
    (∀ run : Except InvErr RunResult, 0 ≤ (get_container_count run : ℤ)) := by
  refine ⟨fun e => rfl, fun r h => ?_, fun r h => ?_, fun run => Int.natCast_nonneg _⟩
  · simp [get_container_count, h]
  · simp [get_container_count, h, List.countP_eq_length_filter]

/-- Witness for C7: a timeout, a non-zero exit, an output with one empty
line among three, and non-negativity at a concrete input. -/
theorem container_count_spec_wit :
    get_container_count (.error .timedOut) = 0 ∧
    get_container_count (.ok { returncode := 2, stdout := "abc" }) = 0 ∧
    get_container_count (.ok { returncode := 0, stdout := "abc\n\ndef" }) =
      (splitChar '\n' (pyStrip ("abc\n\ndef" : String).data)).countP (fun l => !l.isEmpty) ∧
    0 ≤ (get_container_count (.error .timedOut) : ℤ) :=
  ⟨container_count_spec.1 .timedOut,
   container_count_spec.2.1 { returncode := 2, stdout := "abc" } (by decide),
   container_count_spec.2.2.1 { returncode := 0, stdout := "abc\n\ndef" } rfl,
   container_count_spec.2.2.2 (.error .timedOut)⟩

/-- C8 (corrected): the sampler does not enforce the memory ordering for
arbitrary tool output (see the counterexample); what holds is that the
MiB-to-GB conversion preserves order: whenever the tool reports
memory-used at most memory-total on a line (both genuine integers, not
`[N/A]`), the produced metric satisfies
`memory_used_gb ≤ memory_total_gb`. -/
theorem gpu_memory_order_monotone (parts : List (List Char)) (g : GpuMetric)
    (u t : ℤ) (hp : parseGpuLine parts = some g)
    (hu : pyInt (parts.getD 3 []) = some u) (ht : pyInt (parts.getD 4 []) = some t)
    (hle : u ≤ t) : g.memory_used_gb ≤ g.memory_total_gb := by
  obtain ⟨index, util, memUsed, memTotal, temp, h0, h2, h3, h4, h5, hg⟩ :=
    parseGpuLine_inv parts g hp
  have hnone : pyInt naLit = none := by decide
  have hna3 : parts.getD 3 [] ≠ naLit := by
    intro hna
    rw [hna, hnone] at hu
    exact Option.noConfusion hu
  have hna4 : parts.getD 4 [] ≠ naLit := by
    intro hna
    rw [hna, hnone] at ht
    exact Option.noConfusion ht
  rw [if_neg hna3, hu] at h3
  rw [if_neg hna4, ht] at h4
  simp only [Option.map_some', Option.some.injEq] at h3 h4
  subst hg
  simpa [← h3, ← h4] using pyRound1Div_mono_1024 hle

/-- Witness for C8: used 1024 MiB, total 2048 MiB gives 1.0 GB at most
2.0 GB. -/
theorem gpu_memory_order_monotone_wit :
    pyRound1Div 1024 1024 ≤ pyRound1Div 2048 1024 :=
  gpu_memory_order_monotone (lineParts "0, X, 45, 1024, 2048, 60".data)
    { index := 0, name := "X", utilization_percent := 45,
      memory_used_gb := pyRound1Div 1024 1024,
      memory_total_gb := pyRound1Div 2048 1024, temperature_c := 60 }
    1024 2048 rfl (by decide) (by decide) (by decide)

/-- Counterexample to C8 as stated: the tool output is unconstrained — a
line reporting used 2048 MiB but total 1024 MiB yields a metric with both
memory fields non-zero and `memory_used_gb > memory_total_gb`. -/
theorem gpu_memory_order_cex :
    get_gpu_metrics
        (.ok { returncode := 0, stdout := "0, X, 45, 2048, 1024, 60" }) =
      [{ index := 0, name := "X", utilization_percent := 45,
         memory_used_gb := 2, memory_total_gb := 1, temperature_c := 60 }] ∧
    ¬ ((2 : ℚ) ≤ 1) ∧ (2 : ℚ) ≠ 0 ∧ (1 : ℚ) ≠ 0 := by
  refine ⟨?_, by norm_num, by norm_num, by norm_num⟩
  have h : get_gpu_metrics
      (.ok { returncode := 0, stdout := "0, X, 45, 2048, 1024, 60" }) =
      [{ index := 0, name := "X", utilization_percent := 45,
         memory_used_gb := pyRound1Div 2048 1024,
         memory_total_gb := pyRound1Div 1024 1024, temperature_c := 60 }] := by rfl
  have h2 : pyRound1Div 2048 1024 = 2 := by
    have he : halfEvenDiv (10 * 2048) 1024 = 20 := by decide
    rw [pyRound1Div, he]
    norm_num
  have h1 : pyRound1Div 1024 1024 = 1 := by
    have he : halfEvenDiv (10 * 1024) 1024 = 10 := by decide
    rw [pyRound1Div, he]
    norm_num
  rw [h, h2, h1]

/-- C9 (confirmed): a GET of `/health` is answered 200, `text/plain`, body
exactly `OK`, for every request environment — hence independently of the
state of any sampler or external tool. -/
theorem health_route_constant (env : AgentEnv) :
    handleRequest env "GET" "/health" =
      .ok { status := 200, contentType := some "text/plain", cors := false,
            body := .text "OK" } := rfl

/-- C10 (confirmed): route dispatch compares the raw request target for
exact string equality, so a query string or a trailing slash on the
metrics path falls through to the 404 branch with an empty body, for every
request environment. -/
theorem raw_path_exact_match_404 (env : AgentEnv) :
    handleRequest env "GET" "/metrics?x=1" =
      .ok { status := 404, contentType := none, cors := false, body := .empty } ∧
    handleRequest env "GET" "/metrics/" =
      .ok { status := 404, contentType := none, cors := false, body := .empty } :=
  ⟨rfl, rfl⟩
